import Mathlib

/-!
Shallow embedding of the SvxReflector core (Reflector.cpp) and the signal
level squelch (SquelchSigLev.h).  State is passed explicitly; machine
integers are Nat with explicit reductions modulo 2^16 / 2^32 where the C++
code relies on unsigned overflow.  Side effects (broadcasts, per-client
sends, log lines, deferred tasks) are reified as an explicit effect list.
-/

namespace SvxReflector

/-- Protocol version with major and minor parts (class ProtoVer). -/
structure ProtoVer where
  major : Nat
  minor : Nat
deriving DecidableEq

/-- Modelled from the spec: ordering of protocol versions used by
ProtoVerRangeFilter (ReflectorClient.h is not part of src); lexicographic
on (major, minor). -/
def ProtoVer.le (a b : ProtoVer) : Bool :=
  decide (a.major < b.major ∨ (a.major = b.major ∧ a.minor ≤ b.minor))

/-- Connection state of a client session (spec section 4.D). -/
inductive ConState
  | connecting
  | handshaking
  | awaitAuthResp
  | connected
deriving DecidableEq

/-- A connected node as seen by the reflector core.  `currentTG` plays the
role of the TG handler's Client → TG membership map and `blocked` the role
of its block list query (TGHandler.cpp is not part of src). -/
structure Client where
  id : Nat
  callsign : String
  protoVer : ProtoVer
  remoteHost : Nat
  remoteUdpPort : Nat
  nextUdpRxSeq : Nat
  conState : ConState
  blocked : Bool
  currentTG : Nat
  monitoredTGs : List Nat
deriving DecidableEq

/-- Modelled from the spec: the ReflectorClient::Filter algebra
(ReflectorClient.h is not part of src).  A small tagged AST of the atoms
and combinators actually used by Reflector.cpp. -/
inductive Filter
  | tgF : Nat → Filter
  | tgMonitorF : Nat → Filter
  | exceptF : Nat → Filter
  | protoRangeF : ProtoVer → ProtoVer → Filter
  | andF : Filter → Filter → Filter
  | orF : Filter → Filter → Filter
deriving DecidableEq

/-- Modelled from the spec: evaluation of a filter on a client
(spec section 4.C). -/
def Filter.eval : Filter → Client → Bool
  | .tgF tg, c => c.currentTG == tg
  | .tgMonitorF tg, c => c.monitoredTGs.contains tg
  | .exceptF cid, c => c.id != cid
  | .protoRangeF lo hi, c => ProtoVer.le lo c.protoVer && ProtoVer.le c.protoVer hi
  | .andF a b, c => a.eval c && b.eval c
  | .orF a b, c => a.eval c || b.eval c

/-- The pre-bound v1 client filter (Reflector.cpp local globals). -/
def v1Filter : Filter := .protoRangeF ⟨1, 0⟩ ⟨1, 999⟩

/-- The pre-bound v2 client filter (Reflector.cpp local globals). -/
def v2Filter : Filter := .protoRangeF ⟨2, 0⟩ ⟨2, 999⟩

/-- Framed control channel messages emitted by the code under scrutiny. -/
inductive TcpMsg
  | talkerStart : Nat → String → TcpMsg
  | talkerStop : Nat → String → TcpMsg
  | talkerStartV1 : String → TcpMsg
  | talkerStopV1 : String → TcpMsg
  | nodeLeft : String → TcpMsg
  | requestQsyMsg : Nat → TcpMsg
deriving DecidableEq

/-- Datagram channel messages emitted by the code under scrutiny. -/
inductive UdpMsg
  | heartbeat
  | audio : List Nat → UdpMsg
  | flushSamples
  | allSamplesFlushed
deriving DecidableEq

/-- The reified side effects of a handler invocation, in emission order. -/
inductive Effect
  | broadcastTcp : TcpMsg → Filter → Effect
  | broadcastUdp : UdpMsg → Filter → Effect
  | sendUdp : Nat → UdpMsg → Effect
  | logW : String → Effect
  | logI : String → Effect
  | deferDelete : Nat → Effect
deriving DecidableEq

/-- Modelled from the spec: TGHandler::setTalkerForTG arbitration
(TGHandler.cpp is not part of src; spec section 4.B).  The talker map is an
association list TG → talker client id.  Returns the new map and the
optional talkerUpdated event payload (old, new).  Rule 1 (refresh of the
current talker) only touches the activity timestamp, which is outside this
model, so it leaves the map unchanged and emits no event; rule 4
(preemption) is refused with no change and no event. -/
def setTalkerForTG (ts : List (Nat × Nat)) (tg : Nat) (c : Option Nat) :
    List (Nat × Nat) × Option (Option Nat × Option Nat) :=
  match ts.lookup tg, c with
  | none, none => (ts, none)
  | none, some x => ((tg, x) :: ts, some (none, some x))
  | some y, none => (ts.filter (fun p => p.1 != tg), some (some y, none))
  | some _, some _ => (ts, none)

/-- The reflector state: the client map, the TG handler's talker map, the
connection map, and the configuration derived fields of Reflector. -/
structure RState where
  clients : List Client
  talker : List (Nat × Nat)
  conMap : List (Nat × Nat)
  tgForV1 : Nat
  qsyLo : Nat
  qsyHi : Nat
  qsyTG : Nat
deriving DecidableEq

/-- Lookup in m_client_map by client id. -/
def findClient (st : RState) (cid : Nat) : Option Client :=
  st.clients.find? (fun x => x.id == cid)

/-- Replace the stored record of a client (mutation of the ReflectorClient
object held in m_client_map). -/
def updateClient (st : RState) (c : Client) : RState :=
  { st with clients := st.clients.map (fun x => if x.id == c.id then c else x) }

/-- Modelled from the spec: TGHandler::clientsForTG (TGHandler.cpp is not
part of src); the members of a talk group are the clients whose current TG
is that group. -/
def clientsForTG (clients : List Client) (tg : Nat) : List Client :=
  clients.filter (fun c => c.currentTG == tg)

/-- Reflector::broadcastMsg: deliver a control message to every client of
the map that passes the filter and is in state STATE_CONNECTED.  The result
is the delivery list (receiver id, message). -/
def broadcastMsg (clients : List Client) (m : TcpMsg) (f : Filter) :
    List (Nat × TcpMsg) :=
  clients.filterMap (fun c =>
    if f.eval c = true ∧ c.conState = ConState.connected then some (c.id, m)
    else none)

/-- Reflector::broadcastUdpMsg: deliver a datagram message to every client
of the map that passes the filter and is in state STATE_CONNECTED. -/
def broadcastUdpMsg (clients : List Client) (m : UdpMsg) (f : Filter) :
    List (Nat × UdpMsg) :=
  clients.filterMap (fun c =>
    if f.eval c = true ∧ c.conState = ConState.connected then some (c.id, m)
    else none)

/-- Reflector::onTalkerUpdated, the synchronous reaction to the TG handler
talkerUpdated(tg, old, new) event (Reflector.cpp lines 560-595). -/
def onTalkerUpdated (tgV1 tg : Nat) (oldT newT : Option Client) : List Effect :=
  (match oldT with
   | none => []
   | some o =>
       [Effect.logI "Talker stop",
        Effect.broadcastTcp (TcpMsg.talkerStop tg o.callsign)
          (Filter.andF v2Filter (Filter.orF (Filter.tgF tg) (Filter.tgMonitorF tg)))]
       ++ (if tg = tgV1 then
             [Effect.broadcastTcp (TcpMsg.talkerStopV1 o.callsign) v1Filter]
           else [])
       ++ [Effect.broadcastUdp UdpMsg.flushSamples
             (Filter.andF (Filter.tgF tg) (Filter.exceptF o.id))])
  ++ (match newT with
      | none => []
      | some n =>
          [Effect.logI "Talker start",
           Effect.broadcastTcp (TcpMsg.talkerStart tg n.callsign)
             (Filter.andF v2Filter (Filter.orF (Filter.tgF tg) (Filter.tgMonitorF tg)))]
          ++ (if tg = tgV1 then
                [Effect.broadcastTcp (TcpMsg.talkerStartV1 n.callsign) v1Filter]
              else []))

/-- Expand an optional talkerUpdated event into the effects of the
synchronously connected Reflector::onTalkerUpdated handler, resolving the
talker ids into clients through the client map. -/
def talkerEventEffects (st : RState) (tg : Nat)
    (ev : Option (Option Nat × Option Nat)) : List Effect :=
  match ev with
  | none => []
  | some (o, n) =>
      onTalkerUpdated st.tgForV1 tg (o.bind (findClient st)) (n.bind (findClient st))

/-- The payload of an inbound datagram after the header; `audio none`
stands for a MsgUdpAudio whose payload failed to unpack. -/
inductive UdpPayload
  | heartbeat
  | audio : Option (List Nat) → UdpPayload
  | flushSamples
  | allSamplesFlushed
  | other : Nat → UdpPayload
deriving DecidableEq

/-- The datagram header fields the dispatcher reads (ReflectorUdpMsg). -/
structure UdpHeader where
  sequenceNum : Nat
  clientId : Nat
deriving DecidableEq

/-- The type switch of Reflector::udpDatagramReceived (lines 449-556),
executed after validation and the sequence number update.  The only state
the switch mutates is the TG handler's talker map, so the core computes
the new talker map together with the emitted effects.  The talkerUpdated
events raised by setTalkerForTG invoke Reflector::onTalkerUpdated
synchronously, which only reads the client map and the configured TG for
v1 clients, both unchanged here. -/
def handleUdpMsgCore (st : RState) (c : Client) (p : UdpPayload) :
    List (Nat × Nat) × List Effect :=
  match p with
  | .heartbeat => (st.talker, [])
  | .audio dat =>
      if c.blocked then (st.talker, [])
      else
        match dat with
        | none => (st.talker, [Effect.logW "Could not unpack incoming MsgUdpAudioV1 message"])
        | some audioData =>
            if audioData.isEmpty ∨ c.currentTG = 0 then (st.talker, [])
            else
              let tg := c.currentTG
              let first :=
                if (st.talker.lookup tg).isNone then
                  let r := setTalkerForTG st.talker tg (some c.id)
                  (r.1, talkerEventEffects st tg r.2)
                else (st.talker, ([] : List Effect))
              if first.1.lookup tg = some c.id then
                let r2 := setTalkerForTG first.1 tg (some c.id)
                (r2.1,
                  first.2 ++ talkerEventEffects st tg r2.2 ++
                    [Effect.broadcastUdp (UdpMsg.audio audioData)
                      (Filter.andF (Filter.exceptF c.id) (Filter.tgF tg))])
              else (first.1, first.2)
  | .flushSamples =>
      let tg := c.currentTG
      if 0 < tg ∧ st.talker.lookup tg = some c.id then
        let r := setTalkerForTG st.talker tg none
        (r.1,
          talkerEventEffects st tg r.2 ++
            [Effect.sendUdp c.id UdpMsg.allSamplesFlushed])
      else (st.talker, [Effect.sendUdp c.id UdpMsg.allSamplesFlushed])
  | .allSamplesFlushed => (st.talker, [])
  | .other _ => (st.talker, [])

/-- The type switch, as a transformer of the whole reflector state. -/
def handleUdpMsg (st : RState) (c : Client) (p : UdpPayload) :
    RState × List Effect :=
  ({ st with talker := (handleUdpMsgCore st c p).1 }, (handleUdpMsgCore st c p).2)

/-- The sequence number check of Reflector::udpDatagramReceived (lines
430-447) followed by the forwarding to the session and the type switch.
The u16 subtraction of the source is the difference modulo 2^16; the
update of the expected sequence to s + 1 is performed by
ReflectorClient::udpMsgReceived, modelled from the spec
(ReflectorClient.cpp is not part of src; spec section 4.D). -/
def seqStep (st : RState) (c : Client) (h : UdpHeader) (p : UdpPayload)
    (pre : List Effect) : RState × List Effect :=
  let diff := (h.sequenceNum + 65536 - c.nextUdpRxSeq) % 65536
  if 0x7fff < diff then
    (st, pre ++ [Effect.logI "Dropping out of sequence frame"])
  else
    let lost : List Effect := if 0 < diff then [Effect.logI "UDP frames lost"] else []
    let c2 := { c with nextUdpRxSeq := (h.sequenceNum + 1) % 65536 }
    let r := handleUdpMsg (updateClient st c2) c2 p
    (r.1, pre ++ lost ++ r.2)

/-- Reflector::udpDatagramReceived (lines 391-557).  The raw datagram is
abstracted as `none` when the header does not unpack and otherwise as the
decoded header plus payload. -/
def udpDatagramReceived (st : RState) (addr port : Nat)
    (dg : Option (UdpHeader × UdpPayload)) : RState × List Effect :=
  match dg with
  | none => (st, [Effect.logW "Unpacking failed for UDP message header"])
  | some (h, p) =>
      match findClient st h.clientId with
      | none => (st, [Effect.logW "Incoming UDP packet has invalid client id"])
      | some c =>
          if addr ≠ c.remoteHost then
            (st, [Effect.logW "Incoming UDP packet has the wrong source ip"])
          else if c.remoteUdpPort = 0 then
            let c1 := { c with remoteUdpPort := port }
            seqStep (updateClient st c1) c1 h p
              [Effect.sendUdp c.id UdpMsg.heartbeat]
          else if port ≠ c.remoteUdpPort then
            (st, [Effect.logW "Incoming UDP packet has the wrong source UDP port number"])
          else seqStep st c h p []

/-- Reflector::clientDisconnected (lines 359-388).  TGHandler::removeClient
is modelled from the spec as the purge of the departing client from the
talker map (its TG membership disappears with its client map entry).  The
deletion of the client object is deferred through
Application::app().runTask, reified as the deferDelete effect. -/
def clientDisconnected (st : RState) (con : Nat) : RState × List Effect :=
  match st.conMap.lookup con with
  | none => (st, [])
  | some cid =>
      match findClient st cid with
      | none => (st, [])
      | some c =>
          ({ st with
              clients := st.clients.filter (fun x => x.id != cid),
              talker := st.talker.filter (fun p => p.2 != cid),
              conMap := st.conMap.filter (fun p => p.1 != con) },
            (if c.callsign ≠ "" then
               [Effect.broadcastTcp (TcpMsg.nodeLeft c.callsign) (Filter.exceptF cid)]
             else [])
            ++ [Effect.deferDelete cid])

/-- One step of the random QSY cursor: advance by one, wrapping from hi
back to lo (Reflector.cpp lines 308-309). -/
def qsyAdvance (lo hi cur : Nat) : Nat :=
  if cur < hi then cur + 1 else lo

/-- The scan loop of Reflector::requestQsy (lines 304-315): advance the
cursor up to `fuel` times, stopping at the first TG with no members.
Returns the final cursor and the found TG, if any. -/
def qsyScan (clients : List Client) (lo hi : Nat) : Nat → Nat → Nat × Option Nat
  | 0, cur => (cur, none)
  | fuel + 1, cur =>
      let c2 := qsyAdvance lo hi cur
      if (clientsForTG clients c2).isEmpty then (c2, some c2)
      else qsyScan clients lo hi fuel c2

/-- Iterated cursor advance, for stating which TG the scan returns. -/
def iterAdvance (lo hi : Nat) : Nat → Nat → Nat
  | 0, cur => cur
  | k + 1, cur => iterAdvance lo hi k (qsyAdvance lo hi cur)

/-- The RANDOM_QSY_RANGE part of Reflector::initialize (lines 211-223).
`none` stands for an unset RANDOM_QSY_RANGE.  The u32 expression
lo + size - 1 is computed modulo 2^32.  Result: (qsyLo, qsyHi, qsyTG). -/
def qsyConfigure (cfg : Option (Nat × Nat)) : Nat × Nat × Nat :=
  match cfg with
  | none => (0, 0, 0)
  | some (lo, size) =>
      let hi := (lo + size + 4294967295) % 4294967296
      if lo < 1 ∨ hi < lo then (0, 0, 0) else (lo, hi, hi)

/-- Reflector::requestQsy (lines 294-332). -/
def requestQsy (st : RState) (c : Client) (tg : Nat) : RState × List Effect :=
  if tg = 0 then
    if st.qsyTG = 0 then
      (st, [Effect.logI "QSY request for random TG received but RANDOM_QSY_RANGE is empty"])
    else
      let rs := st.qsyHi - st.qsyLo + 1
      let r := qsyScan st.clients st.qsyLo st.qsyHi rs st.qsyTG
      match r.2 with
      | none => ({ st with qsyTG := r.1 }, [Effect.logW "No random TG available for QSY"])
      | some t =>
          ({ st with qsyTG := r.1 },
            [Effect.logI "Requesting QSY",
             Effect.broadcastTcp (TcpMsg.requestQsyMsg t)
               (Filter.andF v2Filter (Filter.tgF c.currentTG))])
  else
    (st, [Effect.logI "Requesting QSY",
          Effect.broadcastTcp (TcpMsg.requestQsyMsg tg)
            (Filter.andF v2Filter (Filter.tgF c.currentTG))])

/-- SquelchSigLev private state (SquelchSigLev.h).  The signal level
detector is an external collaborator; its last measured level is passed as
an argument.  Levels and thresholds are compared only, so they are
modelled as integers. -/
structure SquelchSigLev where
  openThresh : Int
  closeThresh : Int
  is_open : Bool
deriving DecidableEq

/-- SquelchSigLev::processSamples (SquelchSigLev.h lines 178-192): pure
hysteresis on the last signal level; returns the new state and the number
of processed samples. -/
def processSamples (sq : SquelchSigLev) (lastSiglev : Int) (count : Int) :
    SquelchSigLev × Int :=
  if sq.is_open = false ∧ sq.openThresh ≤ lastSiglev then
    ({ sq with is_open := true }, count)
  else if sq.is_open = true ∧ lastSiglev < sq.closeThresh then
    ({ sq with is_open := false }, count)
  else (sq, count)

/-- SquelchSigLev::reset (lines 164-168): the base class reset is outside
the model; the squelch itself is closed. -/
def SquelchSigLev.reset (sq : SquelchSigLev) : SquelchSigLev :=
  { sq with is_open := false }

/-- The control messages that exist only in the v2 protocol generation
among the talker events (MsgTalkerStart and MsgTalkerStop carry a TG and
have no v1 encoding). -/
def isV2TalkerMsg : TcpMsg → Bool
  | .talkerStart _ _ => true
  | .talkerStop _ _ => true
  | _ => false

/-- Example clients used to instantiate theorems at concrete inputs. -/
def wClientA : Client :=
  { id := 1, callsign := "A", protoVer := ⟨2, 0⟩, remoteHost := 10,
    remoteUdpPort := 0, nextUdpRxSeq := 0, conState := ConState.connected,
    blocked := false, currentTG := 42, monitoredTGs := [] }

/-- A second example client, on the same talk group, with a learned UDP
port and protocol version 1. -/
def wClientB : Client :=
  { id := 2, callsign := "B", protoVer := ⟨1, 5⟩, remoteHost := 11,
    remoteUdpPort := 4000, nextUdpRxSeq := 0, conState := ConState.connected,
    blocked := false, currentTG := 42, monitoredTGs := [7] }

/-- An example reflector state holding the two example clients. -/
def wState : RState :=
  { clients := [wClientA, wClientB], talker := [], conMap := [(100, 1), (101, 2)],
    tgForV1 := 1, qsyLo := 0, qsyHi := 0, qsyTG := 0 }

/-- An example state in which client 1 is the talker of TG 42. -/
def wStateTalk : RState := { wState with talker := [(42, 1)] }

/-! Helper lemmas about association list lookup and client map update. -/

theorem lookup_filter_ne (l : List (Nat × Nat)) (k : Nat) :
    (l.filter (fun p => p.1 != k)).lookup k = none := by
  induction l with
  | nil => rfl
  | cons a l ih =>
      obtain ⟨k1, v1⟩ := a
      by_cases h : k1 = k
      · simpa [List.filter_cons, h] using ih
      · have hk : (k == k1) = false := beq_eq_false_iff_ne.mpr (Ne.symm h)
        simpa [List.filter_cons, bne_iff_ne.mpr h, List.lookup, hk] using ih

theorem find?_update (l : List Client) (c c2 : Client)
    (h : l.find? (fun x => x.id == c2.id) = some c) :
    (l.map (fun x => if x.id == c2.id then c2 else x)).find?
      (fun x => x.id == c2.id) = some c2 := by
  induction l with
  | nil => simp at h
  | cons a l ih =>
      by_cases ha : a.id = c2.id
      · simp [List.find?_cons, ha]
      · rw [List.find?_cons_of_neg] at h
        · simpa [List.find?_cons, ha] using ih h
        · simp [ha]

/-- Claim C10: SquelchSigLev::processSamples returns exactly its count
argument; from closed the squelch opens only when the last signal level is
at least the open threshold; from open it closes only when the level is
below the close threshold; reset always leaves the squelch closed. -/
theorem squelch_hysteresis (sq : SquelchSigLev) (lvl count : Int) :
    (processSamples sq lvl count).2 = count ∧
    (sq.is_open = false → (processSamples sq lvl count).1.is_open = true →
      sq.openThresh ≤ lvl) ∧
    (sq.is_open = true → (processSamples sq lvl count).1.is_open = false →
      lvl < sq.closeThresh) ∧
    (SquelchSigLev.reset sq).is_open = false := by
  unfold processSamples SquelchSigLev.reset
  split_ifs with h1 h2 <;> simp_all

theorem squelch_hysteresis_witness :
    (processSamples ⟨5, 2, false⟩ 7 10).2 = 10 ∧
    (false = false → (processSamples ⟨5, 2, false⟩ 7 10).1.is_open = true →
      (5 : Int) ≤ 7) ∧
    (false = true → (processSamples ⟨5, 2, false⟩ 7 10).1.is_open = false →
      (7 : Int) < 2) ∧
    (SquelchSigLev.reset ⟨5, 2, false⟩).is_open = false :=
  squelch_hysteresis ⟨5, 2, false⟩ 7 10

/-- Claim C6: for every broadcast via broadcastMsg or broadcastUdpMsg,
with any filter, a message is delivered to a client only if that client's
connection state is Connected. -/
theorem broadcast_only_connected (clients : List Client) (m : TcpMsg)
    (um : UdpMsg) (f g : Filter) (cid : Nat) (m2 : TcpMsg) (um2 : UdpMsg) :
    ((cid, m2) ∈ broadcastMsg clients m f →
       ∃ c ∈ clients, c.id = cid ∧ c.conState = ConState.connected) ∧
    ((cid, um2) ∈ broadcastUdpMsg clients um g →
       ∃ c ∈ clients, c.id = cid ∧ c.conState = ConState.connected) := by
  constructor
  · intro hm
    simp only [broadcastMsg, List.mem_filterMap] at hm
    obtain ⟨c, hc, hEq⟩ := hm
    split at hEq
    · rename_i hcond
      simp only [Option.some.injEq, Prod.mk.injEq] at hEq
      exact ⟨c, hc, hEq.1, hcond.2⟩
    · simp at hEq
  · intro hm
    simp only [broadcastUdpMsg, List.mem_filterMap] at hm
    obtain ⟨c, hc, hEq⟩ := hm
    split at hEq
    · rename_i hcond
      simp only [Option.some.injEq, Prod.mk.injEq] at hEq
      exact ⟨c, hc, hEq.1, hcond.2⟩
    · simp at hEq

theorem broadcast_only_connected_witness :
    (1, TcpMsg.nodeLeft "X") ∈
        broadcastMsg [wClientA] (TcpMsg.nodeLeft "X") (Filter.tgF 42) ∧
    (∃ c ∈ [wClientA], c.id = 1 ∧ c.conState = ConState.connected) ∧
    (1, UdpMsg.heartbeat) ∈
        broadcastUdpMsg [wClientA] UdpMsg.heartbeat (Filter.tgF 42) ∧
    (∃ c ∈ [wClientA], c.id = 1 ∧ c.conState = ConState.connected) := by
  refine ⟨by decide, ?_, by decide, ?_⟩
  · exact (broadcast_only_connected [wClientA] (TcpMsg.nodeLeft "X")
      UdpMsg.heartbeat (Filter.tgF 42) (Filter.tgF 42) 1 (TcpMsg.nodeLeft "X")
      UdpMsg.heartbeat).1 (by decide)
  · exact (broadcast_only_connected [wClientA] (TcpMsg.nodeLeft "X")
      UdpMsg.heartbeat (Filter.tgF 42) (Filter.tgF 42) 1 (TcpMsg.nodeLeft "X")
      UdpMsg.heartbeat).2 (by decide)

/-- Claim C4: an incoming datagram with sequence number s, against an
expected sequence e, is dropped as out-of-sequence exactly when the u16
difference (s - e) mod 2^16 exceeds 0x7FFF; a positive difference up to
0x7FFF is accepted with a lost-frames log; s = e gives difference 0 and is
accepted; after acceptance the expected sequence becomes (s + 1) mod 2^16. -/
theorem seq_policy (st : RState) (c : Client) (h : UdpHeader) (p : UdpPayload)
    (pre : List Effect) (hs : h.sequenceNum < 65536) (he : c.nextUdpRxSeq < 65536)
    (hfind : findClient st c.id = some c) :
    ((h.sequenceNum + 65536 - c.nextUdpRxSeq) % 65536
       = (((h.sequenceNum : Int) - (c.nextUdpRxSeq : Int)) % 65536).toNat) ∧
    (0x7fff < (h.sequenceNum + 65536 - c.nextUdpRxSeq) % 65536 →
       seqStep st c h p pre
         = (st, pre ++ [Effect.logI "Dropping out of sequence frame"])) ∧
    ((h.sequenceNum + 65536 - c.nextUdpRxSeq) % 65536 ≤ 0x7fff →
       (findClient (seqStep st c h p pre).1 c.id).map Client.nextUdpRxSeq
         = some ((h.sequenceNum + 1) % 65536)) ∧
    (0 < (h.sequenceNum + 65536 - c.nextUdpRxSeq) % 65536 →
       (h.sequenceNum + 65536 - c.nextUdpRxSeq) % 65536 ≤ 0x7fff →
       Effect.logI "UDP frames lost" ∈ (seqStep st c h p pre).2) ∧
    (h.sequenceNum = c.nextUdpRxSeq →
       (h.sequenceNum + 65536 - c.nextUdpRxSeq) % 65536 = 0) := by
  refine ⟨by omega, ?_, ?_, ?_, by omega⟩
  · intro hd
    simp only [seqStep]
    rw [if_pos hd]
  · intro hd
    have hd' : ¬ 0x7fff < (h.sequenceNum + 65536 - c.nextUdpRxSeq) % 65536 :=
      not_lt.mpr hd
    have hupd :
        (st.clients.map (fun x =>
            if x.id == c.id then { c with nextUdpRxSeq := (h.sequenceNum + 1) % 65536 }
            else x)).find? (fun x => x.id == c.id)
          = some { c with nextUdpRxSeq := (h.sequenceNum + 1) % 65536 } :=
      find?_update st.clients c
        { c with nextUdpRxSeq := (h.sequenceNum + 1) % 65536 } hfind
    simp only [seqStep]
    rw [if_neg hd']
    simp only [handleUdpMsg, updateClient, findClient]
    rw [hupd]
    rfl
  · intro hpos hd
    have hd' : ¬ 0x7fff < (h.sequenceNum + 65536 - c.nextUdpRxSeq) % 65536 :=
      not_lt.mpr hd
    simp only [seqStep]
    rw [if_neg hd', if_pos hpos]
    simp

theorem seq_policy_witness :
    seqStep wState wClientA ⟨40000, 1⟩ UdpPayload.heartbeat []
      = (wState, [Effect.logI "Dropping out of sequence frame"]) :=
  (seq_policy wState wClientA ⟨40000, 1⟩ UdpPayload.heartbeat []
    (by decide) (by decide) (by decide)).2.1 (by decide)

/-- Claim C2: an incoming datagram is forwarded to the client session and
acted upon only if its header decodes, its client id is in the client map,
its source IP equals the client's control channel remote IP and, when the
client's UDP port is already learned, its source port equals that port;
any failing datagram yields only a warning log, with the whole reflector
state unchanged and no disconnect. -/
theorem udp_validation (st : RState) (addr port : Nat)
    (dg : Option (UdpHeader × UdpPayload)) :
    (dg = none →
       udpDatagramReceived st addr port dg
         = (st, [Effect.logW "Unpacking failed for UDP message header"])) ∧
    (∀ h p, dg = some (h, p) → findClient st h.clientId = none →
       udpDatagramReceived st addr port dg
         = (st, [Effect.logW "Incoming UDP packet has invalid client id"])) ∧
    (∀ h p c, dg = some (h, p) → findClient st h.clientId = some c →
       addr ≠ c.remoteHost →
       udpDatagramReceived st addr port dg
         = (st, [Effect.logW "Incoming UDP packet has the wrong source ip"])) ∧
    (∀ h p c, dg = some (h, p) → findClient st h.clientId = some c →
       addr = c.remoteHost → c.remoteUdpPort ≠ 0 → port ≠ c.remoteUdpPort →
       udpDatagramReceived st addr port dg
         = (st, [Effect.logW "Incoming UDP packet has the wrong source UDP port number"])) := by
  refine ⟨?_, ?_, ?_, ?_⟩
  · intro hdg; subst hdg; rfl
  · intro h p hdg hcl; subst hdg
    simp only [udpDatagramReceived, hcl]
  · intro h p c hdg hcl hip; subst hdg
    simp only [udpDatagramReceived, hcl]
    rw [if_pos hip]
  · intro h p c hdg hcl hip hport hpm; subst hdg
    simp only [udpDatagramReceived, hcl]
    rw [if_neg (not_not_intro hip), if_neg hport, if_pos hpm]

theorem udp_validation_witness :
    udpDatagramReceived wState 99 4000 (some (⟨0, 2⟩, UdpPayload.heartbeat))
      = (wState, [Effect.logW "Incoming UDP packet has the wrong source ip"]) :=
  (udp_validation wState 99 4000 (some (⟨0, 2⟩, UdpPayload.heartbeat))).2.2.1
    ⟨0, 2⟩ UdpPayload.heartbeat wClientB rfl (by decide) (by decide)

/-- Claim C9: for a datagram from a registered client whose source IP
matches and whose remote UDP port is still 0, the reflector adopts the
datagram's source port and answers with MsgUdpHeartbeat before the
sequence number check runs; a datagram dropped as out-of-sequence still
fixates the port and elicits the heartbeat. -/
theorem udp_port_adoption (st : RState) (addr port : Nat) (h : UdpHeader)
    (p : UdpPayload) (c : Client)
    (hc : findClient st h.clientId = some c)
    (ha : addr = c.remoteHost) (hp0 : c.remoteUdpPort = 0) :
    (∃ rest, (udpDatagramReceived st addr port (some (h, p))).2
        = Effect.sendUdp c.id UdpMsg.heartbeat :: rest) ∧
    ((findClient (udpDatagramReceived st addr port (some (h, p))).1 c.id).map
        Client.remoteUdpPort = some port) ∧
    (0x7fff < (h.sequenceNum + 65536 - c.nextUdpRxSeq) % 65536 →
       udpDatagramReceived st addr port (some (h, p))
         = (updateClient st { c with remoteUdpPort := port },
            [Effect.sendUdp c.id UdpMsg.heartbeat,
             Effect.logI "Dropping out of sequence frame"])) := by
  have hc' : findClient st c.id = some c := by
    have hfind0 : List.find? (fun x => x.id == h.clientId) st.clients = some c := by
      simpa [findClient] using hc
    have h0 := List.find?_some hfind0
    have hid : c.id = h.clientId := by simpa using h0
    rw [hid]; exact hc
  refine ⟨?_, ?_, ?_⟩
  · simp only [udpDatagramReceived, hc]
    rw [if_neg (not_not_intro ha), if_pos hp0]
    simp only [seqStep]
    split
    · exact ⟨_, rfl⟩
    · exact ⟨_, rfl⟩
  · have hupd1 : (st.clients.map (fun x =>
        if x.id == c.id then { c with remoteUdpPort := port } else x)).find?
          (fun x => x.id == c.id) = some { c with remoteUdpPort := port } :=
      find?_update st.clients c { c with remoteUdpPort := port } hc'
    have hupd2 : ((st.clients.map (fun x =>
        if x.id == c.id then { c with remoteUdpPort := port } else x)).map (fun x =>
        if x.id == c.id then
          { c with remoteUdpPort := port,
                   nextUdpRxSeq := (h.sequenceNum + 1) % 65536 }
        else x)).find? (fun x => x.id == c.id)
          = some { c with remoteUdpPort := port,
                          nextUdpRxSeq := (h.sequenceNum + 1) % 65536 } :=
      find?_update
        (st.clients.map (fun x =>
          if x.id == c.id then { c with remoteUdpPort := port } else x))
        { c with remoteUdpPort := port }
        { c with remoteUdpPort := port,
                 nextUdpRxSeq := (h.sequenceNum + 1) % 65536 } hupd1
    simp only [udpDatagramReceived, hc]
    rw [if_neg (not_not_intro ha), if_pos hp0]
    simp only [seqStep]
    split
    · simp only [updateClient, findClient]
      rw [hupd1]
      rfl
    · simp only [handleUdpMsg, updateClient, findClient]
      rw [hupd2]
      rfl
  · intro hdiff
    simp only [udpDatagramReceived, hc]
    rw [if_neg (not_not_intro ha), if_pos hp0]
    simp only [seqStep]
    rw [if_pos hdiff]
    rfl

theorem udp_port_adoption_witness :
    (findClient (udpDatagramReceived wState 10 5005
        (some (⟨0, 1⟩, UdpPayload.heartbeat))).1 1).map
      Client.remoteUdpPort = some 5005 :=
  (udp_port_adoption wState 10 5005 ⟨0, 1⟩ UdpPayload.heartbeat wClientA
    (by decide) (by decide) (by decide)).2.1

/-- Claim C1: for a validated MsgUdpAudio datagram from client c: if c is
blocked, or its TG is 0, or the decoded audio data is empty, nothing is
emitted at all; otherwise the audio is broadcast with the conjunction of
the TG filter and the except-sender filter exactly when the talker of the
TG after the setTalkerForTG call is c (the code applies the two filter
conjuncts in the other order than the spec words them; the last conjunct
shows the two conjunctions evaluate identically on every client); with a
foreign talker the datagram is dropped with no effect. -/
theorem audio_policy (st : RState) (c : Client) (dat : List Nat) :
    (c.blocked = true →
       handleUdpMsg st c (UdpPayload.audio (some dat)) = (st, [])) ∧
    (c.currentTG = 0 →
       handleUdpMsg st c (UdpPayload.audio (some dat)) = (st, [])) ∧
    (dat = [] →
       handleUdpMsg st c (UdpPayload.audio (some dat)) = (st, [])) ∧
    (c.blocked = false → c.currentTG ≠ 0 → dat ≠ [] →
       (st.talker.lookup c.currentTG = none →
          handleUdpMsg st c (UdpPayload.audio (some dat))
            = ({ st with talker := (c.currentTG, c.id) :: st.talker },
               onTalkerUpdated st.tgForV1 c.currentTG none (findClient st c.id) ++
                 [Effect.broadcastUdp (UdpMsg.audio dat)
                   (Filter.andF (Filter.exceptF c.id) (Filter.tgF c.currentTG))])) ∧
       (st.talker.lookup c.currentTG = some c.id →
          handleUdpMsg st c (UdpPayload.audio (some dat))
            = (st, [Effect.broadcastUdp (UdpMsg.audio dat)
                     (Filter.andF (Filter.exceptF c.id) (Filter.tgF c.currentTG))])) ∧
       (∀ d, st.talker.lookup c.currentTG = some d → d ≠ c.id →
          handleUdpMsg st c (UdpPayload.audio (some dat)) = (st, [])) ∧
       ((∃ f, Effect.broadcastUdp (UdpMsg.audio dat) f
            ∈ (handleUdpMsg st c (UdpPayload.audio (some dat))).2) ↔
          (handleUdpMsg st c (UdpPayload.audio (some dat))).1.talker.lookup
            c.currentTG = some c.id)) ∧
    (∀ x, (Filter.andF (Filter.exceptF c.id) (Filter.tgF c.currentTG)).eval x
        = (Filter.andF (Filter.tgF c.currentTG) (Filter.exceptF c.id)).eval x) := by
  refine ⟨?_, ?_, ?_, ?_, ?_⟩
  · intro hb
    simp [handleUdpMsg, handleUdpMsgCore, hb]
  · intro htg
    by_cases hb : c.blocked <;>
      simp [handleUdpMsg, handleUdpMsgCore, hb, htg]
  · intro hdat
    subst hdat
    by_cases hb : c.blocked <;>
      simp [handleUdpMsg, handleUdpMsgCore, hb]
  · intro hb htg hdat
    have hde : dat.isEmpty = false := by
      cases dat with
      | nil => exact absurd rfl hdat
      | cons a l => rfl
    have e1 : st.talker.lookup c.currentTG = none →
        handleUdpMsg st c (UdpPayload.audio (some dat))
          = ({ st with talker := (c.currentTG, c.id) :: st.talker },
             onTalkerUpdated st.tgForV1 c.currentTG none (findClient st c.id) ++
               [Effect.broadcastUdp (UdpMsg.audio dat)
                 (Filter.andF (Filter.exceptF c.id) (Filter.tgF c.currentTG))]) := by
      intro hcur
      simp [handleUdpMsg, handleUdpMsgCore, hb, hde, htg, hcur, setTalkerForTG,
        List.lookup, talkerEventEffects]
    have e2 : st.talker.lookup c.currentTG = some c.id →
        handleUdpMsg st c (UdpPayload.audio (some dat))
          = (st, [Effect.broadcastUdp (UdpMsg.audio dat)
                   (Filter.andF (Filter.exceptF c.id) (Filter.tgF c.currentTG))]) := by
      intro hcur
      simp [handleUdpMsg, handleUdpMsgCore, hb, hde, htg, hcur, setTalkerForTG,
        talkerEventEffects]
    have e3 : ∀ d, st.talker.lookup c.currentTG = some d → d ≠ c.id →
        handleUdpMsg st c (UdpPayload.audio (some dat)) = (st, []) := by
      intro d hcur hd
      simp [handleUdpMsg, handleUdpMsgCore, hb, hde, htg, hcur, setTalkerForTG, hd]
    refine ⟨e1, e2, e3, ?_⟩
    rcases hcur : st.talker.lookup c.currentTG with _ | d
    · rw [e1 hcur]
      constructor
      · intro _
        simp [List.lookup]
      · intro _
        exact ⟨Filter.andF (Filter.exceptF c.id) (Filter.tgF c.currentTG), by simp⟩
    · by_cases hd : d = c.id
      · have hcur2 : st.talker.lookup c.currentTG = some c.id := by rw [hcur, hd]
        rw [e2 hcur2]
        constructor
        · intro _
          simpa using hcur2
        · intro _
          exact ⟨Filter.andF (Filter.exceptF c.id) (Filter.tgF c.currentTG), by simp⟩
      · rw [e3 d hcur hd]
        constructor
        · rintro ⟨f, hf⟩
          simp at hf
        · intro hmem
          simp only at hmem
          rw [hcur] at hmem
          exact absurd (Option.some.injEq _ _ ▸ hmem) (by simpa using hd)
  · intro x
    simp [Filter.eval, Bool.and_comm]

theorem audio_policy_witness :
    handleUdpMsg wState wClientA (UdpPayload.audio (some [3, 4]))
      = ({ wState with talker := [(42, 1)] },
         onTalkerUpdated 1 42 none (findClient wState 1) ++
           [Effect.broadcastUdp (UdpMsg.audio [3, 4])
             (Filter.andF (Filter.exceptF 1) (Filter.tgF 42))]) :=
  ((audio_policy wState wClientA [3, 4]).2.2.2.1 rfl (by decide) (by decide)).1 rfl

/-- Claim C7: for a validated MsgUdpFlushSamples datagram from client c
with tg the client's TG: the talker of tg is cleared exactly when tg > 0
and c is the current talker (raising the talkerUpdated stop broadcasts);
in every case MsgUdpAllSamplesFlushed is sent back to c immediately. -/
theorem flush_policy (st : RState) (c : Client) :
    (Effect.sendUdp c.id UdpMsg.allSamplesFlushed
       ∈ (handleUdpMsg st c UdpPayload.flushSamples).2) ∧
    (0 < c.currentTG → st.talker.lookup c.currentTG = some c.id →
       (handleUdpMsg st c UdpPayload.flushSamples).1.talker.lookup c.currentTG
           = none ∧
       (handleUdpMsg st c UdpPayload.flushSamples).2
         = onTalkerUpdated st.tgForV1 c.currentTG (findClient st c.id) none ++
             [Effect.sendUdp c.id UdpMsg.allSamplesFlushed]) ∧
    (¬(0 < c.currentTG ∧ st.talker.lookup c.currentTG = some c.id) →
       handleUdpMsg st c UdpPayload.flushSamples
         = (st, [Effect.sendUdp c.id UdpMsg.allSamplesFlushed])) := by
  refine ⟨?_, ?_, ?_⟩
  · by_cases hcl : 0 < c.currentTG ∧ st.talker.lookup c.currentTG = some c.id
    · simp [handleUdpMsg, handleUdpMsgCore, hcl, hcl.2, setTalkerForTG,
        talkerEventEffects]
    · simp [handleUdpMsg, handleUdpMsgCore, hcl]
  · intro h1 h2
    constructor
    · simp [handleUdpMsg, handleUdpMsgCore, h1, h2, setTalkerForTG, lookup_filter_ne]
    · simp [handleUdpMsg, handleUdpMsgCore, h1, h2, setTalkerForTG, talkerEventEffects]
  · intro hno
    simp [handleUdpMsg, handleUdpMsgCore, hno]

theorem flush_policy_witness :
    (handleUdpMsg wStateTalk wClientA UdpPayload.flushSamples).1.talker.lookup 42
        = none ∧
    (handleUdpMsg wStateTalk wClientA UdpPayload.flushSamples).2
      = onTalkerUpdated 1 42 (findClient wStateTalk 1) none ++
          [Effect.sendUdp 1 UdpMsg.allSamplesFlushed] :=
  (flush_policy wStateTalk wClientA).2.1 (by decide) (by decide)

/-- Claim C8: on control channel disconnect the client is removed from the
TG handler's talker map and from the client id and connection maps,
MsgNodeLeft(callsign) is broadcast to everyone but the departing client
exactly when the callsign is non-empty, and the only destruction of the
client object is the task deferred to a later event loop iteration. -/
theorem disconnect_policy (st : RState) (con cid : Nat) (c : Client)
    (h1 : st.conMap.lookup con = some cid) (h2 : findClient st cid = some c) :
    (∀ x ∈ (clientDisconnected st con).1.clients, x.id ≠ cid) ∧
    ((clientDisconnected st con).1.conMap.lookup con = none) ∧
    (∀ q ∈ (clientDisconnected st con).1.talker, q.2 ≠ cid) ∧
    ((clientDisconnected st con).2
       = (if c.callsign ≠ "" then
            [Effect.broadcastTcp (TcpMsg.nodeLeft c.callsign) (Filter.exceptF cid)]
          else []) ++ [Effect.deferDelete cid]) ∧
    ((Effect.broadcastTcp (TcpMsg.nodeLeft c.callsign) (Filter.exceptF cid)
        ∈ (clientDisconnected st con).2) ↔ c.callsign ≠ "") ∧
    (Effect.deferDelete cid ∈ (clientDisconnected st con).2) := by
  refine ⟨?_, ?_, ?_, ?_, ?_, ?_⟩
  · intro x hx
    simp only [clientDisconnected, h1, h2] at hx
    simpa using (List.mem_filter.mp hx).2
  · simp only [clientDisconnected, h1, h2]
    exact lookup_filter_ne st.conMap con
  · intro q hq
    simp only [clientDisconnected, h1, h2] at hq
    simpa using (List.mem_filter.mp hq).2
  · simp only [clientDisconnected, h1, h2]
  · by_cases hcs : c.callsign = "" <;>
      simp [clientDisconnected, h1, h2, hcs]
  · simp [clientDisconnected, h1, h2]

theorem disconnect_policy_witness :
    (clientDisconnected wState 100).2
      = (if ("A" : String) ≠ "" then
           [Effect.broadcastTcp (TcpMsg.nodeLeft "A") (Filter.exceptF 1)]
         else []) ++ [Effect.deferDelete 1] :=
  (disconnect_policy wState 100 1 wClientA (by decide) (by decide)).2.2.2.1

theorem v1_not_v2 (x : Client) (h : v1Filter.eval x = true) :
    v2Filter.eval x = false := by
  have hm : x.protoVer.major = 1 := by
    simp only [v1Filter, Filter.eval, ProtoVer.le, Bool.and_eq_true,
      decide_eq_true_eq] at h
    omega
  simp [v2Filter, Filter.eval, ProtoVer.le, hm]

/-- Claim C3: on talkerUpdated(tg, old, new), with old present the
reflector broadcasts MsgTalkerStop(tg, callsign) under
and(v2, or(TgFilter, TgMonitorFilter)), MsgTalkerStopV1 to v1 clients
exactly when tg is the TG configured for v1 clients, and the datagram
MsgUdpFlushSamples under and(TgFilter, ExceptFilter(old)); with new
present the corresponding start messages; and no v2-only talker message
ever passes its filter on a v1 client. -/
theorem talker_updated_broadcasts (tgV1 tg : Nat) (o n : Client)
    (oldT newT : Option Client) :
    (Effect.broadcastTcp (TcpMsg.talkerStop tg o.callsign)
        (Filter.andF v2Filter (Filter.orF (Filter.tgF tg) (Filter.tgMonitorF tg)))
      ∈ onTalkerUpdated tgV1 tg (some o) newT) ∧
    (Effect.broadcastUdp UdpMsg.flushSamples
        (Filter.andF (Filter.tgF tg) (Filter.exceptF o.id))
      ∈ onTalkerUpdated tgV1 tg (some o) newT) ∧
    ((Effect.broadcastTcp (TcpMsg.talkerStopV1 o.callsign) v1Filter
        ∈ onTalkerUpdated tgV1 tg (some o) newT) ↔ tg = tgV1) ∧
    (Effect.broadcastTcp (TcpMsg.talkerStart tg n.callsign)
        (Filter.andF v2Filter (Filter.orF (Filter.tgF tg) (Filter.tgMonitorF tg)))
      ∈ onTalkerUpdated tgV1 tg oldT (some n)) ∧
    ((Effect.broadcastTcp (TcpMsg.talkerStartV1 n.callsign) v1Filter
        ∈ onTalkerUpdated tgV1 tg oldT (some n)) ↔ tg = tgV1) ∧
    (onTalkerUpdated tgV1 tg none none = []) ∧
    (∀ m f x, Effect.broadcastTcp m f ∈ onTalkerUpdated tgV1 tg oldT newT →
       isV2TalkerMsg m = true → v1Filter.eval x = true → f.eval x = false) := by
  refine ⟨?_, ?_, ?_, ?_, ?_, ?_, ?_⟩
  · by_cases htg : tg = tgV1 <;> cases newT <;> simp [onTalkerUpdated, htg]
  · by_cases htg : tg = tgV1 <;> cases newT <;> simp [onTalkerUpdated, htg]
  · by_cases htg : tg = tgV1 <;> cases newT <;> simp [onTalkerUpdated, htg]
  · by_cases htg : tg = tgV1 <;> cases oldT <;> simp [onTalkerUpdated, htg]
  · by_cases htg : tg = tgV1 <;> cases oldT <;> simp [onTalkerUpdated, htg]
  · rfl
  · intro m f x hmem hv2m hv1x
    have hole : ∀ w : Filter, (Filter.andF v2Filter w).eval x = false := by
      intro w
      show (v2Filter.eval x && w.eval x) = false
      rw [v1_not_v2 x hv1x]
      rfl
    cases oldT with
    | none =>
        cases newT with
        | none => simp [onTalkerUpdated] at hmem
        | some n2 =>
            by_cases htg : tg = tgV1 <;> simp [onTalkerUpdated, htg] at hmem
            · rcases hmem with ⟨hm1, hf⟩ | ⟨hm1, hf⟩
              · subst hf; exact hole _
              · subst hm1; simp [isV2TalkerMsg] at hv2m
            · rcases hmem with ⟨hm1, hf⟩
              subst hf; exact hole _
    | some o2 =>
        cases newT with
        | none =>
            by_cases htg : tg = tgV1 <;> simp [onTalkerUpdated, htg] at hmem
            · rcases hmem with ⟨hm1, hf⟩ | ⟨hm1, hf⟩
              · subst hf; exact hole _
              · subst hm1; simp [isV2TalkerMsg] at hv2m
            · rcases hmem with ⟨hm1, hf⟩
              subst hf; exact hole _
        | some n2 =>
            by_cases htg : tg = tgV1 <;> simp [onTalkerUpdated, htg] at hmem
            · rcases hmem with ⟨hm1, hf⟩ | ⟨hm1, hf⟩ | ⟨hm1, hf⟩ | ⟨hm1, hf⟩
              · subst hf; exact hole _
              · subst hm1; simp [isV2TalkerMsg] at hv2m
              · subst hf; exact hole _
              · subst hm1; simp [isV2TalkerMsg] at hv2m
            · rcases hmem with ⟨hm1, hf⟩ | ⟨hm1, hf⟩
              · subst hf; exact hole _
              · subst hf; exact hole _

theorem talker_updated_broadcasts_witness :
    (Effect.broadcastTcp (TcpMsg.talkerStopV1 "A") v1Filter
       ∈ onTalkerUpdated 1 1 (some wClientA) none) ↔ 1 = 1 :=
  (talker_updated_broadcasts 1 1 wClientA wClientB (some wClientA) none).2.2.1

theorem qsyScan_some (clients : List Client) (lo hi : Nat) :
    ∀ fuel cur cur2 t, qsyScan clients lo hi fuel cur = (cur2, some t) →
      (clientsForTG clients t).isEmpty = true ∧ cur2 = t ∧
      ∃ k, 1 ≤ k ∧ k ≤ fuel ∧ t = iterAdvance lo hi k cur ∧
        ∀ j, 1 ≤ j → j < k →
          (clientsForTG clients (iterAdvance lo hi j cur)).isEmpty = false := by
  intro fuel
  induction fuel with
  | zero =>
      intro cur cur2 t h
      simp [qsyScan] at h
  | succ fuel ih =>
      intro cur cur2 t h
      simp only [qsyScan] at h
      by_cases he : (clientsForTG clients (qsyAdvance lo hi cur)).isEmpty = true
      · rw [if_pos he] at h
        rw [Prod.mk.injEq, Option.some.injEq] at h
        obtain ⟨hcur2, ht⟩ := h
        subst ht
        subst hcur2
        refine ⟨he, rfl, 1, le_refl 1, by omega, rfl, ?_⟩
        intro j hj1 hjlt
        omega
      · rw [if_neg he] at h
        obtain ⟨hE, hc2, k, hk1, hkf, htEq, hmin⟩ := ih (qsyAdvance lo hi cur) cur2 t h
        refine ⟨hE, hc2, k + 1, by omega, by omega, htEq, ?_⟩
        intro j hj1 hjlt
        obtain ⟨m, rfl⟩ : ∃ m, j = m + 1 := ⟨j - 1, by omega⟩
        by_cases hm : m = 0
        · subst hm
          show (clientsForTG clients (iterAdvance lo hi 0 (qsyAdvance lo hi cur))).isEmpty = false
          simpa [iterAdvance] using Bool.eq_false_iff.mpr he
        · exact hmin m (by omega) (by omega)

theorem qsyScan_none (clients : List Client) (lo hi : Nat) :
    ∀ fuel cur, (qsyScan clients lo hi fuel cur).2 = none →
      ∀ k, 1 ≤ k → k ≤ fuel →
        (clientsForTG clients (iterAdvance lo hi k cur)).isEmpty = false := by
  intro fuel
  induction fuel with
  | zero =>
      intro cur h k hk1 hk0
      omega
  | succ fuel ih =>
      intro cur h k hk1 hkf
      simp only [qsyScan] at h
      by_cases he : (clientsForTG clients (qsyAdvance lo hi cur)).isEmpty = true
      · rw [if_pos he] at h
        simp at h
      · rw [if_neg he] at h
        obtain ⟨m, rfl⟩ : ∃ m, k = m + 1 := ⟨k - 1, by omega⟩
        by_cases hm : m = 0
        · subst hm
          show (clientsForTG clients (iterAdvance lo hi 0 (qsyAdvance lo hi cur))).isEmpty = false
          simpa [iterAdvance] using Bool.eq_false_iff.mpr he
        · exact ih (qsyAdvance lo hi cur) h m (by omega) (by omega)

/-- Claim C5: the random QSY scan advances the cursor one step at a time
(wrapping from hi to lo), returns the first TG within one full rotation
whose member set is empty and leaves the cursor there; a full rotation
without an empty TG makes the request fail with only a warning and no
broadcast; an unset or illegal range leaves the cursor at 0, and a request
against cursor 0 fails with the state unchanged, hence permanently; a
successful request never broadcasts a TG with non-empty membership. -/
theorem qsy_policy :
    (∀ clients lo hi fuel cur cur2 t,
       qsyScan clients lo hi fuel cur = (cur2, some t) →
         (clientsForTG clients t).isEmpty = true ∧ cur2 = t ∧
         ∃ k, 1 ≤ k ∧ k ≤ fuel ∧ t = iterAdvance lo hi k cur ∧
           ∀ j, 1 ≤ j → j < k →
             (clientsForTG clients (iterAdvance lo hi j cur)).isEmpty = false) ∧
    (∀ clients lo hi fuel cur, (qsyScan clients lo hi fuel cur).2 = none →
       ∀ k, 1 ≤ k → k ≤ fuel →
         (clientsForTG clients (iterAdvance lo hi k cur)).isEmpty = false) ∧
    (∀ st c, st.qsyTG = 0 → requestQsy st c 0 = (st,
       [Effect.logI "QSY request for random TG received but RANDOM_QSY_RANGE is empty"])) ∧
    (qsyConfigure none = (0, 0, 0)) ∧
    (∀ lo size, (lo < 1 ∨ (lo + size + 4294967295) % 4294967296 < lo) →
       qsyConfigure (some (lo, size)) = (0, 0, 0)) ∧
    (∀ st c, st.qsyTG ≠ 0 →
       (qsyScan st.clients st.qsyLo st.qsyHi (st.qsyHi - st.qsyLo + 1) st.qsyTG).2
           = none →
       requestQsy st c 0
         = ({ st with qsyTG := (qsyScan st.clients st.qsyLo st.qsyHi
               (st.qsyHi - st.qsyLo + 1) st.qsyTG).1 },
            [Effect.logW "No random TG available for QSY"])) ∧
    (∀ st c t, st.qsyTG ≠ 0 →
       (qsyScan st.clients st.qsyLo st.qsyHi (st.qsyHi - st.qsyLo + 1) st.qsyTG).2
           = some t →
       (clientsForTG st.clients t).isEmpty = true ∧
       requestQsy st c 0
         = ({ st with qsyTG := (qsyScan st.clients st.qsyLo st.qsyHi
               (st.qsyHi - st.qsyLo + 1) st.qsyTG).1 },
            [Effect.logI "Requesting QSY",
             Effect.broadcastTcp (TcpMsg.requestQsyMsg t)
               (Filter.andF v2Filter (Filter.tgF c.currentTG))])) := by
  refine ⟨qsyScan_some, qsyScan_none, ?_, rfl, ?_, ?_, ?_⟩
  · intro st c h0
    simp [requestQsy, h0]
  · intro lo size hill
    simp only [qsyConfigure]
    rw [if_pos hill]
  · intro st c hne hscan
    simp only [requestQsy, if_pos rfl]
    rw [if_neg hne, hscan, if_pos trivial]
  · intro st c t hne hscan
    constructor
    · have hfull : qsyScan st.clients st.qsyLo st.qsyHi
          (st.qsyHi - st.qsyLo + 1) st.qsyTG
          = ((qsyScan st.clients st.qsyLo st.qsyHi
              (st.qsyHi - st.qsyLo + 1) st.qsyTG).1, some t) := by
        rw [← hscan]
      exact (qsyScan_some st.clients st.qsyLo st.qsyHi _ _ _ _ hfull).1
    · simp only [requestQsy, if_pos rfl]
      rw [if_neg hne, hscan, if_pos trivial]

theorem qsy_policy_witness :
    (clientsForTG [wClientA] 100).isEmpty = true ∧
    requestQsy { clients := [wClientA], talker := [], conMap := [], tgForV1 := 1,
                 qsyLo := 100, qsyHi := 102, qsyTG := 102 } wClientA 0
      = ({ clients := [wClientA], talker := [], conMap := [], tgForV1 := 1,
           qsyLo := 100, qsyHi := 102, qsyTG := 100 },
         [Effect.logI "Requesting QSY",
          Effect.broadcastTcp (TcpMsg.requestQsyMsg 100)
            (Filter.andF v2Filter (Filter.tgF 42))]) :=
  qsy_policy.2.2.2.2.2.2
    { clients := [wClientA], talker := [], conMap := [], tgForV1 := 1,
      qsyLo := 100, qsyHi := 102, qsyTG := 102 } wClientA 100
    (by decide) (by decide)

end SvxReflector
